import Mathlib

/-!
Shallow embedding of the `resolve_ai` package (DaVinci Resolve AI assistant):
the orchestrator `ResolveAssistant` (`assistant.py`), the classifier
`TaskRouter` (`task_router.py`), the advisor wrapper `CopilotCLI`
(`copilot_cli.py`) and the generation client `ComfyUIClient`
(`comfyui_client.py`).

Python-level effects are made explicit:
* exceptions are values of `PyExc`, fallible code runs in `Except PyExc`;
* dictionary values coming from parsed JSON or built by the router are
  `PyVal`s, and `dict.get` / `str.lower` raise exactly when the Python
  operations would;
* external processes (the `gh` CLI), HTTP probes, the JSON library and the
  graph backend are oracles collected in an environment record, so theorems
  quantify over every possible behaviour of the outside world.
-/

/-- A Python exception, carrying the class and its message text
(`str(e)` is the message). -/
inductive PyExc where
  | attributeError (msg : String)
  | typeError (msg : String)
  | runtimeError (msg : String)
  | timeoutExpired (msg : String)
  | fileNotFoundError (msg : String)
  deriving Repr, DecidableEq

/-- `str(e)` for a Python exception: the message text. -/
def PyExc.text : PyExc → String
  | .attributeError m => m
  | .typeError m => m
  | .runtimeError m => m
  | .timeoutExpired m => m
  | .fileNotFoundError m => m

/-- A Python value as far as the modelled code inspects it: strings,
numbers, `None`, dictionaries (association lists, insertion-ordered),
4-tuples of floats (colour tuples) and `other` for every value kind the
modelled code never looks inside (JSON arrays, booleans, nested data). -/
inductive PyVal where
  | str (s : String)
  | num (q : ℚ)
  | none
  | dict (entries : List (String × PyVal))
  | tup4 (a b c d : ℚ)
  | other

/-- Association-list lookup used by the `PyVal.dict` model of `dict.get`. -/
def pyLookup (k : String) : List (String × PyVal) → Option PyVal
  | [] => Option.none
  | (k2, v) :: rest => if k2 = k then some v else pyLookup k rest

/-- `value.get(key, default)`: succeeds on dictionaries, raises
`AttributeError` on any non-dict value (e.g. `str.get` does not exist). -/
def pyGet (v : PyVal) (key : String) (default : PyVal) : Except PyExc PyVal :=
  match v with
  | .dict entries => .ok ((pyLookup key entries).getD default)
  | _ => .error (.attributeError ("object has no attribute get: " ++ key))

/-- Python `==` between an arbitrary value and a string literal: true only
for the equal string (values of other types are never equal to a `str`). -/
def pyEqStr (v : PyVal) (s : String) : Bool :=
  match v with
  | .str t => t == s
  | _ => false

/-- Does the character list `needle` occur at the head of `haystack`? -/
def headMatches : List Char → List Char → Bool
  | [], _ => true
  | _ :: _, [] => false
  | a :: as, b :: bs => a == b && headMatches as bs

/-- Does `needle` occur as a contiguous run inside `haystack`? -/
def occursIn (needle : List Char) : List Char → Bool
  | [] => needle.isEmpty
  | c :: cs => headMatches needle (c :: cs) || occursIn needle cs

/-- Python's substring test `kw in s`. -/
def pyIn (kw s : String) : Bool :=
  occursIn kw.data s.data

/-- Python `str.lower()` (per-character lowering, as `String.toLower` does,
but structurally recursive so that proofs can evaluate it). -/
def strLower (s : String) : String :=
  ⟨s.data.map Char.toLower⟩

/-- Fuel-driven left-to-right non-overlapping replacement; with
`fuel = l.length` and a non-empty pattern this is Python `str.replace`
(the code only ever replaces non-empty command words). -/
def replaceAux (pat rep : List Char) : Nat → List Char → List Char
  | 0, l => l
  | fuel + 1, l =>
    match l with
    | [] => []
    | c :: cs =>
      if !pat.isEmpty && headMatches pat l then
        rep ++ replaceAux pat rep fuel (l.drop pat.length)
      else c :: replaceAux pat rep fuel cs

/-- Python `s.replace(pat, rep)` for non-empty `pat`. -/
def pyReplace (s pat rep : String) : String :=
  ⟨replaceAux pat.data rep.data s.data.length s.data⟩

/-- Fuel-driven splitting on a non-empty separator, accumulating the
current segment in reverse. -/
def splitAux (sep : List Char) : Nat → List Char → List Char → List (List Char)
  | 0, l, cur => [cur.reverse ++ l]
  | fuel + 1, l, cur =>
    match l with
    | [] => [cur.reverse]
    | c :: cs =>
      if !sep.isEmpty && headMatches sep l then
        cur.reverse :: splitAux sep fuel (l.drop sep.length) []
      else splitAux sep fuel cs (c :: cur)

/-- Python `s.split(sep)` for non-empty `sep`. -/
def pySplit (s sep : String) : List String :=
  (splitAux sep.data s.data.length s.data []).map fun l => ⟨l⟩

/-- `value.lower()`: defined on strings, raises `AttributeError` otherwise. -/
def pyLower (v : PyVal) : Except PyExc String :=
  match v with
  | .str t => .ok (strLower t)
  | _ => .error (.attributeError "object has no attribute lower")

/-- One decimal digit character, as printed by `str(n)` (`0 ≤ d < 10`). -/
def decDigit (d : Nat) : Char := Nat.digitChar d

/-- Fuel-driven decimal rendering of a natural number, most significant
digit first; with fuel > n this is exactly Python's `str(n)` for naturals. -/
def natToDecAux : Nat → Nat → List Char
  | 0, _ => []
  | fuel + 1, n =>
    if n < 10 then [decDigit n]
    else natToDecAux fuel (n / 10) ++ [decDigit (n % 10)]

/-- The decimal rendering of `n`, i.e. the characters of Python `str(n)`. -/
def natToDec (n : Nat) : List Char := natToDecAux (n + 1) n

/-- Decimal decoding, a left inverse of `natToDec`. -/
def decVal (l : List Char) : Nat :=
  l.foldl (fun a c => a * 10 + (c.toNat - 48)) 0

theorem decVal_append (l : List Char) (c : Char) :
    decVal (l ++ [c]) = decVal l * 10 + (c.toNat - 48) := by
  simp [decVal, List.foldl_append]

theorem decDigit_toNat (d : Nat) (h : d < 10) : (decDigit d).toNat - 48 = d := by
  interval_cases d <;> rfl

theorem decVal_natToDecAux (fuel n : Nat) (h : n < fuel) :
    decVal (natToDecAux fuel n) = n := by
  induction fuel generalizing n with
  | zero => omega
  | succ f ih =>
    by_cases h10 : n < 10
    · simp [natToDecAux, h10, decVal, decDigit_toNat n h10]
    · have hdiv : n / 10 < f := by
        have h1 : n / 10 < n := Nat.div_lt_self (by omega) (by omega)
        omega
      simp only [natToDecAux, if_neg h10]
      rw [decVal_append, ih (n / 10) hdiv,
        decDigit_toNat (n % 10) (Nat.mod_lt n (by omega))]
      omega

theorem decVal_natToDec (n : Nat) : decVal (natToDec n) = n :=
  decVal_natToDecAux (n + 1) n (Nat.lt_succ_self n)

theorem natToDec_injective : Function.Injective natToDec := by
  intro a b h
  have := congrArg decVal h
  rwa [decVal_natToDec, decVal_natToDec] at this

/-- The characters of the literal label `"fusion_"`. -/
def fusionTag : List Char := ['f', 'u', 's', 'i', 'o', 'n', '_']

/-- The characters of the literal label `"comfyui_"`. -/
def comfyTag : List Char := ['c', 'o', 'm', 'f', 'y', 'u', 'i', '_']

/-- The execution-order entry `f"fusion_{i}"` built by the router. -/
def fusionRef (i : Nat) : String := ⟨fusionTag ++ natToDec i⟩

/-- The execution-order entry `f"comfyui_{i}"` built by the router. -/
def comfyRef (i : Nat) : String := ⟨comfyTag ++ natToDec i⟩

theorem fusionRef_injective : Function.Injective fusionRef := by
  intro a b h
  apply natToDec_injective
  have h2 : fusionTag ++ natToDec a = fusionTag ++ natToDec b :=
    congrArg String.data h
  exact List.append_cancel_left h2

theorem comfyRef_injective : Function.Injective comfyRef := by
  intro a b h
  apply natToDec_injective
  have h2 : comfyTag ++ natToDec a = comfyTag ++ natToDec b :=
    congrArg String.data h
  exact List.append_cancel_left h2

theorem fusionRef_ne_comfyRef (i j : Nat) : fusionRef i ≠ comfyRef j := by
  intro h
  have h2 : fusionTag ++ natToDec i = comfyTag ++ natToDec j :=
    congrArg String.data h
  simp [fusionTag, comfyTag] at h2

/-! ## `copilot_cli.py` — the Planner Advisor wrapper -/

/-- What `subprocess.run` produced when it returned normally. -/
structure ProcResult where
  returncode : Int
  stdout : String
  stderr : String

/-- Outcome of one `subprocess.run` invocation: a completed process, a
`subprocess.TimeoutExpired`, or a `FileNotFoundError` (tool not installed). -/
inductive ProcOutcome where
  | done (r : ProcResult)
  | timeout (msg : String)
  | notFound (msg : String)

/-- `subprocess.run(...)` itself: returns the completed process or raises. -/
def runProc : ProcOutcome → Except PyExc ProcResult
  | .done r => .ok r
  | .timeout m => .error (.timeoutExpired m)
  | .notFound m => .error (.fileNotFoundError m)

/-- The `CopilotSuggestion` dataclass. `task_type` is whatever value
`data.get('task_type', 'fusion')` produced (a string on the fallback path). -/
structure CopilotSuggestion where
  command : String
  explanation : String
  confidence : ℚ
  task_type : PyVal

/-- Outcome of one `requests.get` call: a response with a status code, or a
raised `requests.exceptions.RequestException`. -/
inductive HttpOutcome where
  | resp (status : Nat)
  | raiseReq (msg : String)

/-- Outcome of one `FusionNodeBuilder.create_*_node` call: a (truthy) node
object, `None`, or a raised exception. -/
inductive BuildOutcome where
  | node
  | noneVal
  | raise (e : PyExc)

/-- `url.rstrip('/')`. -/
def rstripSlash (s : String) : String :=
  ⟨(s.data.reverse.dropWhile (fun c => c == '/')).reverse⟩

/-- The `ComfyUIClient` instance state set by its `__init__`. -/
structure ComfyUIClient where
  server_url : String
  wan22_model : String
  client_id : String

/-- The external world as the modelled code can observe it: clock readings,
subprocess outcomes, the JSON library, HTTP probes, and the graph backend.
Theorems quantify over all of these. -/
structure PyEnv where
  /-- `time.time()` at entry of `process_request`. -/
  time0 : ℚ
  /-- `time.time()` at the second reading (success path or `except` path). -/
  time1 : ℚ
  /-- Outcome of each `gh copilot suggest -t shell <prompt>` subprocess,
  keyed by the prompt argument. -/
  ghSuggest : String → ProcOutcome
  /-- Result of `re.search(r'\x7b[\s\S]*\x7d', out)` + `json.loads` on the
  suggest stdout: `some v` means an object parsed and
  `v = data.get('task_type', 'fusion')`; `none` means no parse (no match or
  `json.JSONDecodeError`), which triggers the keyword fallback. -/
  jsonTaskType : String → Option PyVal
  /-- `json.dumps(data)` for the parsed suggest object, keyed by stdout. -/
  jsonDumps : String → String
  /-- `data.get('explanation', '')` for the parsed suggest object. -/
  jsonExplanation : String → String
  /-- Result of `re.search(r'\[[\s\S]*\]', out)` + `json.loads` on the
  `break_down_task` stdout: `some steps` means an array parsed. -/
  jsonSteps : String → Option (List PyVal)
  /-- Outcome of each `requests.get(url, timeout=5)`, keyed by URL. -/
  httpGet : String → HttpOutcome
  /-- `str(uuid.uuid4())`. -/
  uuid : String
  /-- Whether `self.builder` is set (an active Fusion composition exists). -/
  builderAvailable : Bool
  /-- Outcome of a builder node-creation call, keyed by node type and the
  step dictionary the parameters were read from. -/
  buildNode : String → PyVal → BuildOutcome
  /-- Outcome of `builder.create_loader_node(file_path, name)`. -/
  buildLoader : String → String → BuildOutcome
  /-- The `self.comfyui` field the executor methods read. -/
  comfyui : Option ComfyUIClient

/-- `CopilotCLI._build_prompt`: the instruction template around the request;
the composition context is appended only when truthy (non-empty). -/
def buildSuggestPrompt (user_request : String) (context : Option String) : String :=
  let prompt :=
    "\nDaVinci Resolve Fusion AI Assistant\n\nUser Request: " ++ user_request ++
    "\n\nAvailable Tools:\n1. Fusion Nodes (use for basic shapes, text, effects, transforms):\n   - Background, Gradient, FastNoise\n   - Text+, TextStyler\n   - Transform, Merge, Dissolve\n   - ColorCorrector, BrightnessContrast, ColorCurves\n   - Blur, Glow, DirectionalBlur\n   - Loader (for media), Saver (for output)\n\n2. ComfyUI with Wan 2.2 (use for AI-generated content):\n   - Character generation\n   - Complex scenes\n   - Photorealistic images\n   - Artistic styles\n   - Anything beyond basic shapes/effects\n\nTask: Analyze the request and suggest whether to use Fusion nodes, ComfyUI, or both.\nRespond with JSON format:\n\x7b\n  \"task_type\": \"fusion\" | \"comfyui\" | \"hybrid\",\n  \"explanation\": \"why this approach\",\n  \"steps\": [\"step 1\", \"step 2\", ...],\n  \"fusion_nodes\": [\"node1\", \"node2\"] (if applicable),\n  \"comfyui_prompt\": \"prompt text\" (if applicable)\n\x7d\n"
  match context with
  | some ctx => if ctx.isEmpty then prompt else
      prompt ++ "\n\nCurrent Composition State:\n" ++ ctx
  | none => prompt

/-- The generation-indicating keyword list of `_infer_task_type`. -/
def aiKeywords : List String :=
  ["comfyui", "generate", "create character", "create scene",
   "photorealistic", "artistic", "fantasy", "dragon", "person",
   "landscape", "painting", "style"]

/-- The graph-indicating keyword list of `_infer_task_type`. -/
def fusionKeywords : List String :=
  ["fusion", "node", "background", "text", "transform",
   "merge", "color", "blur", "glow", "effect"]

/-- `sum(1 for kw in kws if kw in response_lower or kw in request_lower)`. -/
def keywordScore (kws : List String) (respL reqL : String) : Nat :=
  kws.countP (fun kw => pyIn kw respL || pyIn kw reqL)

/-- `CopilotCLI._infer_task_type`: the purely local keyword fallback. -/
def inferTaskType (response request : String) : String :=
  let respL := strLower response
  let reqL := strLower request
  let ai_score := keywordScore aiKeywords respL reqL
  let fusion_score := keywordScore fusionKeywords respL reqL
  if ai_score > fusion_score then "comfyui"
  else if ai_score > 0 && fusion_score > 0 then "hybrid"
  else "fusion"

/-- `CopilotCLI._parse_suggestion`: trust parsed JSON (confidence 0.9), else
fall back to `_infer_task_type` over the raw text (confidence 0.7). -/
def parseSuggestion (env : PyEnv) (copilot_output original_request : String) :
    CopilotSuggestion :=
  match env.jsonTaskType copilot_output with
  | some tt =>
    { command := env.jsonDumps copilot_output
      explanation := env.jsonExplanation copilot_output
      confidence := 9 / 10
      task_type := tt }
  | none =>
    { command := copilot_output
      explanation := copilot_output
      confidence := 7 / 10
      task_type := .str (inferTaskType copilot_output original_request) }

/-- `CopilotCLI.suggest`: run the `gh copilot suggest` subprocess (which may
raise), raise `RuntimeError` on a non-zero exit code, else parse. -/
def copilotSuggest (env : PyEnv) (user_request : String) (context : Option String) :
    Except PyExc CopilotSuggestion := do
  let result ← runProc (env.ghSuggest (buildSuggestPrompt user_request context))
  if result.returncode ≠ 0 then
    .error (.runtimeError ("Copilot CLI error: " ++ result.stderr))
  else
    .ok (parseSuggestion env result.stdout user_request)

/-- The `break_down_task` prompt template. -/
def breakDownPrompt (user_request : String) : String :=
  "\nBreak down this DaVinci Resolve task into executable steps:\n\"" ++
  user_request ++
  "\"\n\nFor each step, specify:\n1. Description (what to do)\n2. Type (fusion, comfyui, or timeline)\n3. Details (node types, parameters, or prompts)\n\nRespond with JSON array:\n[\n  \x7b\n    \"id\": 1,\n    \"description\": \"Create background\",\n    \"type\": \"fusion\",\n    \"details\": \x7b\n      \"node\": \"Background\",\n      \"params\": \x7b\"color\": [1, 0, 0, 1]\x7d\n    \x7d\n  \x7d,\n  ...\n]\n"

/-- `CopilotCLI.break_down_task`: run the subprocess (exit code is never
checked here, but a raised timeout/launch failure propagates), parse a JSON
array from stdout, else fall back to a single generic fusion step. -/
def breakDownTask (env : PyEnv) (user_request : String) :
    Except PyExc (List PyVal) := do
  let result ← runProc (env.ghSuggest (breakDownPrompt user_request))
  match env.jsonSteps result.stdout with
  | some steps => .ok steps
  | none => .ok [PyVal.dict
      [("id", .num 1), ("description", .str user_request),
       ("type", .str "fusion"), ("details", .dict [])]]

/-! ## `task_router.py` — the Task Classifier -/

/-- The `RoutedTask` dataclass (the spec's *ExecutionPlan*): `task_type` is
`'fusion' | 'comfyui' | 'hybrid'`, the two step lists, and the
execution-order reference strings (`fusion_i` / `comfyui_i`). -/
structure RoutedTask where
  task_type : String
  description : String
  fusion_steps : List PyVal
  comfyui_prompts : List PyVal
  execution_order : List String

/-- The colour-name table of `TaskRouter._extract_color`, in source order. -/
def colorMap : List (String × (ℚ × ℚ × ℚ × ℚ)) :=
  [("red", (1, 0, 0, 1)), ("green", (0, 1, 0, 1)), ("blue", (0, 0, 1, 1)),
   ("yellow", (1, 1, 0, 1)), ("cyan", (0, 1, 1, 1)), ("magenta", (1, 0, 1, 1)),
   ("white", (1, 1, 1, 1)), ("black", (0, 0, 0, 1)),
   ("gray", (1/2, 1/2, 1/2, 1)), ("grey", (1/2, 1/2, 1/2, 1))]

/-- First colour name occurring in the text wins; default neutral grey. -/
def extractColorAux : List (String × (ℚ × ℚ × ℚ × ℚ)) → String → ℚ × ℚ × ℚ × ℚ
  | [], _ => (1/2, 1/2, 1/2, 1)
  | (nm, cv) :: rest, text => if pyIn nm text then cv else extractColorAux rest text

/-- `TaskRouter._extract_color`. -/
def extractColor (text : String) : ℚ × ℚ × ℚ × ℚ :=
  extractColorAux colorMap text

/-- The double-quote and single-quote characters (codepoints 34 and 39). -/
def dquote : Char := Char.ofNat 34

def squote : Char := Char.ofNat 39

/-- `re.search(r'"([^"]+)"', text)` (and its single-quote twin): the first
position with a quote followed by a nonempty quote-free run and a closing
quote; returns the captured group. -/
def scanQuoted (q : Char) : List Char → Option (List Char)
  | [] => Option.none
  | c :: rest =>
    if c == q then
      let grp := rest.takeWhile (fun d => d != q)
      if grp.isEmpty then scanQuoted q rest
      else
        match rest.dropWhile (fun d => d != q) with
        | _ :: _ => some grp
        | [] => scanQuoted q rest
    else scanQuoted q rest

/-- Python `str.strip()` (whitespace at both ends). -/
def pyStrip (s : String) : String :=
  ⟨((s.data.dropWhile Char.isWhitespace).reverse.dropWhile Char.isWhitespace).reverse⟩

/-- Python `str.strip('"\x27')`: quote characters at both ends. -/
def stripQuoteChars (s : String) : String :=
  let isQ := fun c => c == dquote || c == squote
  ⟨((s.data.dropWhile isQ).reverse.dropWhile isQ).reverse⟩

/-- The keyword pass of `_extract_text_content`: for each keyword present in
the lowercased text, split on it and return the stripped second part. -/
def textAfterKeyword : List String → String → String
  | [], _ => "Sample Text"
  | kw :: rest, text =>
    let lowerText := strLower text
    if pyIn kw lowerText then
      match pySplit lowerText kw with
      | _ :: p1 :: _ => stripQuoteChars (pyStrip p1)
      | _ => textAfterKeyword rest text
    else textAfterKeyword rest text

/-- `TaskRouter._extract_text_content`: quoted text first (double then
single quotes), then text after a keyword, else a placeholder. -/
def extractTextContent (text : String) : String :=
  match scanQuoted dquote text.data with
  | some grp => ⟨grp⟩
  | Option.none =>
    match scanQuoted squote text.data with
    | some grp => ⟨grp⟩
    | Option.none => textAfterKeyword ["saying", "text", "title", "subtitle"] text

/-- `TaskRouter._extract_fusion_steps`: fixed-vocabulary pattern matching on
the lowercased request; a generic step if nothing matched. -/
def extractFusionSteps (request : String) : List PyVal :=
  let rl := strLower request
  let color := extractColor rl
  let steps :=
    (if pyIn "background" rl then
      [PyVal.dict [("type", .str "background"),
        ("description", .str "Create background"),
        ("params", .dict [("color", .tup4 color.1 color.2.1 color.2.2.1 color.2.2.2)])]]
     else []) ++
    (if ["text", "title", "lower-third", "subtitle"].any (fun w => pyIn w rl) then
      [PyVal.dict [("type", .str "text"),
        ("description", .str "Create text"),
        ("params", .dict [("text", .str (extractTextContent request)),
                          ("size", .num (1/10))])]]
     else []) ++
    (if pyIn "glow" rl then
      [PyVal.dict [("type", .str "glow"),
        ("description", .str "Add glow effect"),
        ("params", .dict [("intensity", .num 5)])]]
     else []) ++
    (if pyIn "blur" rl then
      [PyVal.dict [("type", .str "blur"),
        ("description", .str "Add blur effect"),
        ("params", .dict [("blur_size", .num 5)])]]
     else []) ++
    (if ["move", "position", "transform", "scale", "rotate"].any (fun w => pyIn w rl) then
      [PyVal.dict [("type", .str "transform"),
        ("description", .str "Transform element"),
        ("params", .dict [])]]
     else [])
  if steps.isEmpty then
    [PyVal.dict [("type", .str "generic"),
      ("description", .str request), ("params", .dict [])]]
  else steps

/-- The command words removed by `_extract_comfyui_prompts`. -/
def removeWords : List String :=
  ["create", "generate", "make", "add", "using ai", "with ai"]

/-- `TaskRouter._extract_comfyui_prompts`: strip command words, trim, then
wrap with a category-dependent quality suffix; always exactly one prompt. -/
def extractComfyuiPrompts (request : String) : List PyVal :=
  let prompt := removeWords.foldl (fun p w => pyReplace p w "") request
  let prompt := pyStrip prompt
  let prompt :=
    if pyIn "background" (strLower request) then
      "cinematic background, " ++ prompt ++ ", high quality, detailed"
    else if pyIn "character" (strLower request) then
      "character, " ++ prompt ++ ", professional lighting, detailed"
    else prompt ++ ", high quality, professional"
  [.str prompt]

/-- `TaskRouter._route_fusion_task`. -/
def routeFusionTask (request : String) : RoutedTask :=
  let fusion_steps := extractFusionSteps request
  { task_type := "fusion"
    description := request
    fusion_steps := fusion_steps
    comfyui_prompts := []
    execution_order := (List.range fusion_steps.length).map fusionRef }

/-- `TaskRouter._route_comfyui_task`: one prompt plus a trailing loader
step; order `['comfyui_0', 'fusion_0']`. -/
def routeComfyuiTask (request : String) : RoutedTask :=
  { task_type := "comfyui"
    description := request
    fusion_steps := [PyVal.dict [("type", .str "loader"),
      ("description", .str "Load AI-generated image"),
      ("params", .dict [("clip", .str "\x7bgenerated_image\x7d")])]]
    comfyui_prompts := extractComfyuiPrompts request
    execution_order := [comfyRef 0, fusionRef 0] }

/-- The loop of `_route_hybrid_task`: distribute the advisor's steps over
the two lists, appending a reference to the freshly appended index.
`step.get` raises on non-dict steps, exactly as in Python. -/
def hybridLoop (request : String) :
    List PyVal → List PyVal → List PyVal → List String →
    Except PyExc (List PyVal × List PyVal × List String)
  | [], fs, cs, ord => .ok (fs, cs, ord)
  | step :: rest, fs, cs, ord => do
    let tv ← pyGet step "type" PyVal.none
    if pyEqStr tv "comfyui" then
      let details ← pyGet step "details" (PyVal.dict [])
      let p ← pyGet details "prompt" (PyVal.str request)
      hybridLoop request rest fs (cs ++ [p]) (ord ++ [comfyRef cs.length])
    else
      hybridLoop request rest (fs ++ [step]) cs (ord ++ [fusionRef fs.length])

/-- `TaskRouter._route_hybrid_task`. -/
def routeHybridTask (env : PyEnv) (request : String) : Except PyExc RoutedTask := do
  let steps ← breakDownTask env request
  let (fs, cs, ord) ← hybridLoop request steps [] [] []
  .ok { task_type := "hybrid"
        description := request
        fusion_steps := fs
        comfyui_prompts := cs
        execution_order := ord }

/-- `TaskRouter.route`: advisor call, then dispatch on the suggested type
(anything that is not `'fusion'` or `'comfyui'` routes as hybrid). -/
def route (env : PyEnv) (user_request : String) (context : Option String) :
    Except PyExc RoutedTask := do
  let suggestion ← copilotSuggest env user_request context
  if pyEqStr suggestion.task_type "fusion" then
    .ok (routeFusionTask user_request)
  else if pyEqStr suggestion.task_type "comfyui" then
    .ok (routeComfyuiTask user_request)
  else
    routeHybridTask env user_request

/-- Sanity: the reference strings coincide with the source literals. -/
theorem comfyRef_zero_eq : comfyRef 0 = "comfyui_0" ∧ fusionRef 0 = "fusion_0" := by
  constructor <;> decide

/-! ## `comfyui_client.py` — the Generation Backend client -/

/-- `ComfyUIClient.__init__` with its liveness probe
(`_check_server_available`): status 200 passes, any other status or a
request exception raises `RuntimeError`. -/
def comfyUIClientInit (env : PyEnv) (server_url : String)
    (wan22_model : String := "wan2.2.safetensors") : Except PyExc ComfyUIClient :=
  let c : ComfyUIClient :=
    { server_url := rstripSlash server_url
      wan22_model := wan22_model
      client_id := env.uuid }
  match env.httpGet (c.server_url ++ "/system_stats") with
  | .resp status =>
    if status == 200 then .ok c
    else .error (.runtimeError "ComfyUI server not responding")
  | .raiseReq _ =>
    .error (.runtimeError
      ("ComfyUI server not available at " ++ c.server_url ++
       "\nMake sure ComfyUI is running:\n  python main.py --listen 0.0.0.0 --port 8188"))

/-- The attribute names an initialised `ComfyUIClient` instance has: the
fields set in `__init__` plus the methods of the class body. Note there is
no `check_connection`. -/
def comfyAttrNames : List String :=
  ["server_url", "wan22_model", "client_id",
   "_check_server_available", "generate", "_build_wan22_workflow",
   "_monitor_progress", "_get_image", "generate_batch", "upscale"]

/-- Python attribute lookup on a `ComfyUIClient`: raises `AttributeError`
for names outside `comfyAttrNames`. -/
def comfyGetAttr (_c : ComfyUIClient) (name : String) : Except PyExc Unit :=
  if comfyAttrNames.contains name then .ok ()
  else .error (.attributeError
    ("ComfyUIClient object has no attribute " ++ name))

/-- `self.comfyui.check_connection()`: the attribute lookup happens first
and `check_connection` is not in `comfyAttrNames`, so the expression raises
before any call could happen. -/
def comfyCheckConnection (c : ComfyUIClient) : Except PyExc Bool :=
  match comfyGetAttr c "check_connection" with
  | .error e => .error e
  | .ok _ => .error (.runtimeError "unreachable: the lookup above raises")

/-! ## `assistant.py` — the Execution Orchestrator -/

/-- The `AssistantState` enum. -/
inductive AssistantState where
  | idle
  | analyzing
  | routing
  | executingFusion
  | executingComfyui
  | executingHybrid
  | previewing
  | error
  | complete
  deriving Repr, DecidableEq

/-- The `IterationResult` dataclass; the `__post_init__` defaulting of the
two lists to `[]` is baked into the default field values. -/
structure IterationResult where
  success : Bool
  duration : ℚ
  state : AssistantState
  message : String
  nodes_created : List PyVal := []
  images_generated : List String := []
  error : Option String := Option.none

/-- The `try` body of `ResolveAssistant.__init__`'s ComfyUI setup: construct
the client (probe may raise), then call the non-existent
`check_connection`; any exception is caught and leaves `self.comfyui = None`. -/
def assistantInitComfy (env : PyEnv) (comfyui_url : String) : Option ComfyUIClient :=
  match (do
      let c ← comfyUIClientInit env comfyui_url
      let connected ← comfyCheckConnection c
      pure (c, connected) : Except PyExc (ComfyUIClient × Bool)) with
  | .ok (c, connected) => if connected then some c else Option.none
  | .error _ => Option.none

/-- The `comfyui_available` field of `ResolveAssistant.get_status`:
`self.comfyui.check_connection() if self.comfyui else False`. -/
def getStatusComfyAvailable (comfyui : Option ComfyUIClient) : Except PyExc Bool :=
  match comfyui with
  | some c => comfyCheckConnection c
  | Option.none => .ok false

/-- `ResolveAssistant._create_fusion_node`: read the step's `type` (the
`.lower()` raises on a non-string value — this line is **outside** the
`try`), dispatch on the known node kinds inside a `try` whose handler turns
any exception into `None`; unknown kinds yield `None` as well. -/
def createFusionNode (env : PyEnv) (step : PyVal) : Except PyExc (Option Unit) := do
  let tv ← pyGet step "type" (PyVal.str "")
  let node_type ← pyLower tv
  match node_type with
  | "background" | "text" | "merge" | "transform" | "glow" | "blur" =>
    match env.buildNode node_type step with
    | .node => .ok (some ())
    | .noneVal => .ok Option.none
    | .raise _ => .ok Option.none
  | _ => .ok Option.none

/-- The loop body of `_execute_fusion_task`: create each node, appending
`step.get('name', 'Unknown')` when a (truthy) node came back. -/
def execFusionSteps (env : PyEnv) :
    List PyVal → List PyVal → Except PyExc (List PyVal)
  | [], acc => .ok acc
  | step :: rest, acc => do
    let node ← createFusionNode env step
    match node with
    | some _ => do
      let nm ← pyGet step "name" (PyVal.str "Unknown")
      execFusionSteps env rest (acc ++ [nm])
    | Option.none => execFusionSteps env rest acc

/-- `ResolveAssistant._execute_fusion_task`: fail if no composition, else
run all steps; an uncaught exception becomes the error result with *fresh
empty* artifact lists; otherwise `success=True` unconditionally. -/
def executeFusionTask (env : PyEnv) (task : RoutedTask) : IterationResult :=
  if !env.builderAvailable then
    { success := false, duration := 0, state := .error
      message := "Fusion composition not available"
      error := some "No active Fusion composition" }
  else
    match execFusionSteps env task.fusion_steps [] with
    | .ok nodes_created =>
      { success := true, duration := 0, state := .complete
        message := "✓ Created " ++ ⟨natToDec nodes_created.length⟩ ++ " Fusion nodes"
        nodes_created := nodes_created }
    | .error e =>
      { success := false, duration := 0, state := .error
        message := "Failed to create Fusion nodes"
        error := some e.text }

/-- The call `self.comfyui.generate(prompt=..., width=512, height=512,
steps=15, cfg_scale=7.0, style=style)`: `ComfyUIClient.generate` accepts
`(prompt, negative_prompt, width, height, steps, cfg, seed)` — it has no
`cfg_scale` or `style` parameter, so the call raises `TypeError` before the
body runs. -/
def comfyGenerateCall (_c : ComfyUIClient) (_prompt : PyVal) (_style : PyVal) :
    Except PyExc Unit :=
  .error (.typeError "generate() got an unexpected keyword argument cfg_scale")

/-- The generation loop shared by `_execute_comfyui_task` and
`_execute_hybrid_task`: `prompt_data.get(...)` raises on non-dict prompt
entries, and the `generate` call itself raises `TypeError` (bad keyword
arguments), so no iteration can append an image. -/
def execComfyPrompts (env : PyEnv) (c : ComfyUIClient) (withLoader : Bool) :
    List PyVal → List String → Except PyExc (List String)
  | [], acc => .ok acc
  | prompt_data :: rest, acc => do
    let prompt ← pyGet prompt_data "prompt" (PyVal.str "")
    let style ← pyGet prompt_data "style" (PyVal.str "photorealistic")
    let _result ← comfyGenerateCall c prompt style
    -- `result.success`, the loader import and the append are unreachable
    -- behind the `TypeError`; the recursion keeps the accumulator as the
    -- source loop would.
    let _ := withLoader
    execComfyPrompts env c withLoader rest acc

/-- `ResolveAssistant._execute_comfyui_task`. -/
def executeComfyuiTask (env : PyEnv) (task : RoutedTask) : IterationResult :=
  match env.comfyui with
  | Option.none =>
    { success := false, duration := 0, state := .error
      message := "ComfyUI not available - AI image generation disabled"
      error := some "ComfyUI server not connected. Start ComfyUI or use Fusion-only tasks." }
  | some c =>
    match execComfyPrompts env c true task.comfyui_prompts [] with
    | .ok images_generated =>
      { success := true, duration := 0, state := .complete
        message := "✓ Generated " ++ ⟨natToDec images_generated.length⟩ ++ " AI images"
        images_generated := images_generated }
    | .error e =>
      { success := false, duration := 0, state := .error
        message := "Failed to generate AI images"
        error := some e.text }

/-- The `try` body of `_execute_hybrid_task`: the generation phase, then
the graph phase (only if a composition exists). -/
def execHybridBody (env : PyEnv) (c : ComfyUIClient) (task : RoutedTask) :
    Except PyExc (List String × List PyVal) := do
  let images ← execComfyPrompts env c false task.comfyui_prompts []
  let nodes ←
    if env.builderAvailable then execFusionSteps env task.fusion_steps []
    else pure []
  pure (images, nodes)

/-- `ResolveAssistant._execute_hybrid_task`: generation phase, then the
graph phase (only if a composition exists); one `try` around both phases,
whose handler again builds a result with fresh empty lists. -/
def executeHybridTask (env : PyEnv) (task : RoutedTask) : IterationResult :=
  match env.comfyui with
  | Option.none =>
    { success := false, duration := 0, state := .error
      message := "ComfyUI not available - cannot execute hybrid task"
      error := some "Hybrid tasks require ComfyUI. Try a Fusion-only task or start ComfyUI server." }
  | some c =>
    match execHybridBody env c task with
    | .ok (images_generated, nodes_created) =>
      { success := true, duration := 0, state := .complete
        message := "✓ Generated " ++ ⟨natToDec images_generated.length⟩ ++
          " images + " ++ ⟨natToDec nodes_created.length⟩ ++ " nodes"
        images_generated := images_generated
        nodes_created := nodes_created }
    | .error e =>
      { success := false, duration := 0, state := .error
        message := "Failed to execute hybrid task"
        error := some e.text }

/-- Attribute access `TaskType.FUSION_ONLY` / `TaskType.COMFYUI_ONLY` in
`process_request`: `TaskType` is the alias
`Literal['fusion', 'comfyui', 'hybrid']` from `task_router.py`; a
`typing.Literal` alias exposes no such attributes, so the access raises
`AttributeError` at evaluation time. -/
def taskTypeAttr (name : String) : Except PyExc String :=
  .error (.attributeError name)

/-- The prompt `_analyze_input` wraps around the request before calling
`copilot.suggest`. -/
def analyzePrompt (user_input : String) : String :=
  "DaVinci Resolve Fusion task: " ++ user_input ++
  "\n        \n        Provide a brief, actionable plan (max 3 steps) for:\n        - Fusion nodes needed, OR\n        - AI generation requirements, OR\n        - Combination of both\n        \n        Keep it concise for 20-second execution."

/-- The body of the `try` in `ResolveAssistant.process_request`: analyze
(the advisor call may raise), route, then dispatch on
`TaskType.FUSION_ONLY` / `TaskType.COMFYUI_ONLY` — whose evaluation raises. -/
def processRequestBody (env : PyEnv) (user_input : String) :
    Except PyExc IterationResult := do
  -- Step 1: `_analyze_input` builds its prompt and calls `copilot.suggest`.
  let _suggestion ← copilotSuggest env (analyzePrompt user_input) Option.none
  -- Step 2: `_route_task` ignores the suggestion and routes the raw input.
  let routed_task ← route env user_input Option.none
  -- Step 3: dispatch on the task type.
  let fusionOnly ← taskTypeAttr "FUSION_ONLY"
  if routed_task.task_type == fusionOnly then
    pure (executeFusionTask env routed_task)
  else do
    let comfyuiOnly ← taskTypeAttr "COMFYUI_ONLY"
    if routed_task.task_type == comfyuiOnly then
      pure (executeComfyuiTask env routed_task)
    else
      pure (executeHybridTask env routed_task)

/-- `ResolveAssistant.process_request`: the whole pipeline inside one
`try/except Exception`; the handler converts any exception into a failure
`IterationResult` with the elapsed duration.  On the success path the
duration is overwritten and an over-budget warning may be appended. -/
def processRequest (env : PyEnv) (user_input : String)
    (iteration_limit : ℚ := 20) : IterationResult :=
  match processRequestBody env user_input with
  | .ok result =>
    let duration := env.time1 - env.time0
    let result := { result with duration := duration }
    if duration > iteration_limit then
      { result with message := result.message ++ " ⚠️ Exceeded limit" }
    else result
  | .error e =>
    { success := false
      duration := env.time1 - env.time0
      state := .error
      message := "Error processing request"
      error := some e.text }


/-! ## Claim theorems -/

theorem comfyCheckConnection_raises (c : ComfyUIClient) :
    comfyCheckConnection c =
      .error (.attributeError "ComfyUIClient object has no attribute check_connection") := rfl

/-- **C4**: after `ResolveAssistant.__init__`, the generation-backend handle
`self.comfyui` is `None` for every probe outcome and URL — even a live
server ends in the `except` branch, because the constructor then calls the
non-existent `check_connection` — and `get_status` therefore always reports
the generation backend as unavailable. -/
theorem c4_comfyui_handle_always_none (env : PyEnv) (url : String) :
    assistantInitComfy env url = Option.none ∧
    getStatusComfyAvailable (assistantInitComfy env url) = .ok false := by
  have hmain : assistantInitComfy env url = Option.none := by
    unfold assistantInitComfy
    cases hinit : comfyUIClientInit env url with
    | ok c => rfl
    | error e => rfl
  exact ⟨hmain, by rw [hmain]; rfl⟩

/-- **C9**: the keyword-scoring fallback classifies `'comfyui'`
(GenerationOnly) exactly when the generation score strictly exceeds the
graph score, `'hybrid'` when both scores are nonzero and generation does
not strictly exceed graph, `'fusion'` (GraphOnly) otherwise; in particular
equal nonzero scores always give `'hybrid'`. -/
theorem c9_keyword_fallback_classification (response request : String) :
    (inferTaskType response request = "comfyui" ↔
      keywordScore aiKeywords (strLower response) (strLower request) >
        keywordScore fusionKeywords (strLower response) (strLower request)) ∧
    (inferTaskType response request = "hybrid" ↔
      (¬ keywordScore aiKeywords (strLower response) (strLower request) >
          keywordScore fusionKeywords (strLower response) (strLower request) ∧
        0 < keywordScore aiKeywords (strLower response) (strLower request) ∧
        0 < keywordScore fusionKeywords (strLower response) (strLower request))) ∧
    (inferTaskType response request = "fusion" ↔
      (¬ keywordScore aiKeywords (strLower response) (strLower request) >
          keywordScore fusionKeywords (strLower response) (strLower request) ∧
        (keywordScore aiKeywords (strLower response) (strLower request) = 0 ∨
         keywordScore fusionKeywords (strLower response) (strLower request) = 0))) ∧
    ((keywordScore aiKeywords (strLower response) (strLower request) =
        keywordScore fusionKeywords (strLower response) (strLower request) ∧
      keywordScore aiKeywords (strLower response) (strLower request) ≠ 0) →
      inferTaskType response request = "hybrid") := by
  have hrfl : inferTaskType response request =
      (if keywordScore aiKeywords (strLower response) (strLower request) >
          keywordScore fusionKeywords (strLower response) (strLower request)
       then "comfyui"
       else if keywordScore aiKeywords (strLower response) (strLower request) > 0 &&
               keywordScore fusionKeywords (strLower response) (strLower request) > 0
       then "hybrid" else "fusion") := rfl
  rw [hrfl]
  generalize keywordScore aiKeywords (strLower response) (strLower request) = a
  generalize keywordScore fusionKeywords (strLower response) (strLower request) = f
  by_cases h1 : a > f
  · rw [if_pos h1]
    exact ⟨iff_of_true rfl h1,
           iff_of_false (by decide) (fun h => h.1 h1),
           iff_of_false (by decide) (fun h => h.1 h1),
           fun h => absurd h1 (by omega)⟩
  · by_cases h2 : 0 < a ∧ 0 < f
    · have hb : (a > 0 && f > 0) = true := by
        simp only [Bool.and_eq_true, decide_eq_true_eq]
        exact ⟨h2.1, h2.2⟩
      rw [if_neg h1, if_pos hb]
      refine ⟨iff_of_false (by decide) (fun hh => h1 hh), iff_of_true rfl ⟨h1, h2.1, h2.2⟩,
              iff_of_false (by decide) ?_, fun _ => rfl⟩
      rintro ⟨-, h0 | h0⟩ <;> omega
    · have hb : (a > 0 && f > 0) = false := by
        rcases Nat.eq_zero_or_pos a with h | h
        · simp [h]
        · rcases Nat.eq_zero_or_pos f with h' | h'
          · simp [h']
          · exact absurd ⟨h, h'⟩ h2
      rw [if_neg h1, if_neg (by simp [hb])]
      refine ⟨iff_of_false (by decide) h1, iff_of_false (by decide) ?_,
              iff_of_true rfl ⟨h1, by omega⟩, fun h => absurd ⟨by omega, by omega⟩ h2⟩
      rintro ⟨-, ha, hf⟩
      exact h2 ⟨ha, hf⟩

/-- Witness for C9 at a concrete tie: `"generate glow"` scores exactly one
generation keyword and one graph keyword, and is classified `'hybrid'`. -/
theorem c9_keyword_fallback_classification_witness :
    inferTaskType "" "generate glow" = "hybrid" :=
  (c9_keyword_fallback_classification "" "generate glow").2.2.2 (by decide)

theorem exceptBind_ok {ε α β : Type} (a : α) (f : α → Except ε β) :
    (Except.ok a >>= f) = f a := rfl

theorem exceptBind_error {ε α β : Type} (e : ε) (f : α → Except ε β) :
    ((Except.error e : Except ε α) >>= f) = Except.error e := rfl

/-- Every run of the `try` body of `process_request` raises: either the
advisor or the router raises first, or the `TaskType.FUSION_ONLY` dispatch
does. -/
theorem processRequestBody_errors (env : PyEnv) (input : String) :
    ∃ e, processRequestBody env input = .error e := by
  unfold processRequestBody
  cases hs : copilotSuggest env (analyzePrompt input) Option.none with
  | error e => exact ⟨e, by rw [exceptBind_error]⟩
  | ok s =>
    rw [exceptBind_ok]
    cases hr : route env input Option.none with
    | error e => exact ⟨e, by rw [exceptBind_error]⟩
    | ok t =>
      exact ⟨.attributeError "FUSION_ONLY", by rw [exceptBind_ok]; rfl⟩

/-- **C1**: `process_request` never lets an exception escape — every
failure below the boundary becomes an `IterationResult` with
`success=false`, `finalState=Error`, the exception text in `error`, empty
artifact lists and the elapsed duration, which is nonnegative whenever the
clock is monotone. -/
theorem c1_process_request_converts_failures (env : PyEnv) (input : String)
    (e : PyExc) (hclock : env.time0 ≤ env.time1)
    (hfail : processRequestBody env input = .error e) :
    processRequest env input =
      { success := false, duration := env.time1 - env.time0,
        state := .error, message := "Error processing request",
        nodes_created := [], images_generated := [], error := some e.text } ∧
    0 ≤ (processRequest env input).duration := by
  have h : processRequest env input =
      { success := false, duration := env.time1 - env.time0,
        state := .error, message := "Error processing request",
        nodes_created := [], images_generated := [], error := some e.text } := by
    unfold processRequest
    rw [hfail]
  refine ⟨h, ?_⟩
  rw [h]
  simp only
  linarith

/-- A concrete world in which the advisor subprocess times out, the
generation server is unreachable and no composition is open. -/
def envTimeout : PyEnv :=
  { time0 := 0, time1 := 1
    ghSuggest := fun _ => .timeout "Command timed out"
    jsonTaskType := fun _ => Option.none
    jsonDumps := fun _ => ""
    jsonExplanation := fun _ => ""
    jsonSteps := fun _ => Option.none
    httpGet := fun _ => .raiseReq "connection refused"
    uuid := "uuid"
    builderAvailable := false
    buildNode := fun _ _ => .raise (.runtimeError "backend down")
    buildLoader := fun _ _ => .noneVal
    comfyui := Option.none }

/-- Witness for C1: with a timing-out advisor the orchestrator returns the
converted failure result, and its duration is nonnegative. -/
theorem c1_process_request_converts_failures_witness :
    processRequest envTimeout "make a title" =
      { success := false, duration := envTimeout.time1 - envTimeout.time0,
        state := .error, message := "Error processing request",
        nodes_created := [], images_generated := [],
        error := some (PyExc.timeoutExpired "Command timed out").text } ∧
    0 ≤ (processRequest envTimeout "make a title").duration :=
  c1_process_request_converts_failures envTimeout "make a title"
    (.timeoutExpired "Command timed out") (by norm_num [envTimeout]) rfl

/-- **C2**: the dispatch in `process_request` evaluates
`TaskType.FUSION_ONLY`, an attribute the `Literal` alias does not have, so
whenever classification succeeds the request still ends in the `Error`
result with the `AttributeError` text — and `process_request` never returns
`success=true` for any request whatsoever. -/
theorem c2_dispatch_always_raises (env : PyEnv) (input : String) :
    (processRequest env input).success = false ∧
    (processRequest env input).state = AssistantState.error ∧
    (∀ s t, copilotSuggest env (analyzePrompt input) Option.none = .ok s →
      route env input Option.none = .ok t →
      (processRequest env input).error = some "FUSION_ONLY") := by
  obtain ⟨e, he⟩ := processRequestBody_errors env input
  refine ⟨?_, ?_, ?_⟩
  · unfold processRequest; rw [he]
  · unfold processRequest; rw [he]
  · intro s t hs ht
    have he2 : processRequestBody env input =
        .error (.attributeError "FUSION_ONLY") := by
      unfold processRequestBody
      rw [hs, exceptBind_ok, ht, exceptBind_ok]
      rfl
    unfold processRequest
    rw [he2]
    rfl

/-- A concrete world in which the advisor subprocess succeeds and its
output parses as a `'fusion'` classification. -/
def envOkFusion : PyEnv :=
  { envTimeout with
    ghSuggest := fun _ => .done { returncode := 0, stdout := "output", stderr := "" }
    jsonTaskType := fun _ => some (.str "fusion") }

/-- Witness for C2: with a healthy advisor and a parsed classification the
result is still the `FUSION_ONLY` attribute error. -/
theorem c2_dispatch_always_raises_witness :
    (processRequest envOkFusion "add a glow").success = false ∧
    (processRequest envOkFusion "add a glow").error = some "FUSION_ONLY" :=
  ⟨(c2_dispatch_always_raises envOkFusion "add a glow").1,
   (c2_dispatch_always_raises envOkFusion "add a glow").2.2 _ _ rfl rfl⟩

/-- **C6**: with the generation backend absent, both the generation-only
and the hybrid executor fail fast: `success=false`, no generated artifact
paths, and a message naming the missing backend (`"ComfyUI"` occurs in it);
the result does not depend on any backend oracle. -/
theorem c6_generation_backend_unavailable_fails_fast (env : PyEnv)
    (task : RoutedTask) (h : env.comfyui = Option.none) :
    (executeComfyuiTask env task).success = false ∧
    (executeComfyuiTask env task).images_generated = [] ∧
    pyIn "ComfyUI" (executeComfyuiTask env task).message = true ∧
    (executeHybridTask env task).success = false ∧
    (executeHybridTask env task).images_generated = [] ∧
    pyIn "ComfyUI" (executeHybridTask env task).message = true := by
  have e1 : executeComfyuiTask env task =
      { success := false, duration := 0, state := .error
        message := "ComfyUI not available - AI image generation disabled"
        nodes_created := [], images_generated := []
        error := some "ComfyUI server not connected. Start ComfyUI or use Fusion-only tasks." } := by
    unfold executeComfyuiTask
    rw [h]
  have e2 : executeHybridTask env task =
      { success := false, duration := 0, state := .error
        message := "ComfyUI not available - cannot execute hybrid task"
        nodes_created := [], images_generated := []
        error := some "Hybrid tasks require ComfyUI. Try a Fusion-only task or start ComfyUI server." } := by
    unfold executeHybridTask
    rw [h]
  rw [e1, e2]
  exact ⟨rfl, rfl, by decide, rfl, rfl, by decide⟩

/-- A generation-only plan used by several witnesses. -/
def taskGen : RoutedTask :=
  { task_type := "comfyui", description := "generate a dragon"
    fusion_steps := [], comfyui_prompts := [PyVal.str "dragon"]
    execution_order := [comfyRef 0] }

/-- Witness for C6 at a concrete environment and plan. -/
theorem c6_generation_backend_unavailable_fails_fast_witness :
    (executeComfyuiTask envTimeout taskGen).success = false ∧
    (executeComfyuiTask envTimeout taskGen).images_generated = [] ∧
    pyIn "ComfyUI" (executeComfyuiTask envTimeout taskGen).message = true ∧
    (executeHybridTask envTimeout taskGen).success = false ∧
    (executeHybridTask envTimeout taskGen).images_generated = [] ∧
    pyIn "ComfyUI" (executeHybridTask envTimeout taskGen).message = true :=
  c6_generation_backend_unavailable_fails_fast envTimeout taskGen rfl

/-- A world with an open composition whose `text` nodes succeed and whose
other node creations raise. -/
def envBuilder : PyEnv :=
  { envTimeout with
    builderAvailable := true
    buildNode := fun t _ => if t == "text" then .node else .raise (.runtimeError "node failed") }

/-- A step dictionary for a text node. -/
def stepText : PyVal := .dict [("type", .str "text"), ("name", .str "Title1")]

/-- A step dictionary whose `type` value is a number, so that
`step.get('type', '').lower()` raises outside the per-step `try`. -/
def stepBadType : PyVal := .dict [("type", .num 1)]

/-- A two-step graph plan: the first step succeeds, the second raises. -/
def taskPartial : RoutedTask :=
  { task_type := "fusion", description := "partial"
    fusion_steps := [stepText, stepBadType], comfyui_prompts := []
    execution_order := [fusionRef 0, fusionRef 1] }

/-- **C5 counterexample**: the first step creates its node, the second step
raises, and the returned result has `nodes_created = []` — the partial
artifact `"Title1"` accumulated before the exception is *not* in the
result, contradicting the claim that partial progress is never discarded. -/
theorem c5_partial_progress_counterexample :
    createFusionNode envBuilder stepText = .ok (some ()) ∧
    (executeFusionTask envBuilder taskPartial).success = false ∧
    (executeFusionTask envBuilder taskPartial).error =
      some "object has no attribute lower" ∧
    (executeFusionTask envBuilder taskPartial).nodes_created = [] :=
  ⟨rfl, rfl, rfl, rfl⟩

/-- **C5 amended**: on an unhandled exception during an executing state the
result does carry `success=false` and the exception text, but each handler
builds a fresh `IterationResult` whose artifact lists are empty — partial
progress is discarded, not surfaced. -/
theorem c5_amended_exception_discards_partial_progress (env : PyEnv)
    (task : RoutedTask) :
    (∀ e, env.builderAvailable = true →
      execFusionSteps env task.fusion_steps [] = .error e →
      executeFusionTask env task =
        { success := false, duration := 0, state := .error
          message := "Failed to create Fusion nodes"
          nodes_created := [], images_generated := [], error := some e.text }) ∧
    (∀ c e, env.comfyui = some c →
      execComfyPrompts env c true task.comfyui_prompts [] = .error e →
      executeComfyuiTask env task =
        { success := false, duration := 0, state := .error
          message := "Failed to generate AI images"
          nodes_created := [], images_generated := [], error := some e.text }) ∧
    (∀ c e, env.comfyui = some c →
      execHybridBody env c task = .error e →
      executeHybridTask env task =
        { success := false, duration := 0, state := .error
          message := "Failed to execute hybrid task"
          nodes_created := [], images_generated := [], error := some e.text }) := by
  refine ⟨?_, ?_, ?_⟩
  · intro e hb he
    simp only [executeFusionTask, hb, Bool.not_true, Bool.false_eq_true,
      if_false, he]
  · intro c e hc he
    simp only [executeComfyuiTask, hc, he]
  · intro c e hc he
    simp only [executeHybridTask, hc, he]

/-- Witness for the amended C5 at the concrete two-step plan. -/
theorem c5_amended_exception_discards_partial_progress_witness :
    executeFusionTask envBuilder taskPartial =
      { success := false, duration := 0, state := .error
        message := "Failed to create Fusion nodes"
        nodes_created := [], images_generated := []
        error := some "object has no attribute lower" } :=
  (c5_amended_exception_discards_partial_progress envBuilder taskPartial).1
    (.attributeError "object has no attribute lower") rfl rfl

/-- A world with an open composition in which every node creation returns
`None` (a soft per-step failure). -/
def envSoftFail : PyEnv :=
  { envTimeout with builderAvailable := true, buildNode := fun _ _ => .noneVal }

/-- A one-step graph plan (the plan requires at least one artifact). -/
def taskOneStep : RoutedTask :=
  { task_type := "fusion", description := "add text"
    fusion_steps := [stepText], comfyui_prompts := []
    execution_order := [fusionRef 0] }

/-- **C8 counterexample**: a one-step graph plan whose only step fails to
produce its node completes without an exception, produces zero artifacts —
and the result still has `success=true` with no explanatory soft-failure
message, contradicting the claimed zero-artifact soft failure. -/
theorem c8_zero_artifacts_counterexample :
    taskOneStep.fusion_steps.length = 1 ∧
    executeFusionTask envSoftFail taskOneStep =
      { success := true, duration := 0, state := .complete
        message := "✓ Created 0 Fusion nodes"
        nodes_created := [], images_generated := [], error := Option.none } :=
  ⟨rfl, rfl⟩

/-- **C8 amended**: whenever an executing state completes without an
unhandled exception, the result has `success=true` and state `Complete`
unconditionally — the executors never convert a zero-artifact completion
into a soft failure. -/
theorem c8_amended_completion_always_success (env : PyEnv) (task : RoutedTask) :
    (∀ ns, env.builderAvailable = true →
      execFusionSteps env task.fusion_steps [] = .ok ns →
      (executeFusionTask env task).success = true ∧
      (executeFusionTask env task).state = .complete) ∧
    (∀ c imgs, env.comfyui = some c →
      execComfyPrompts env c true task.comfyui_prompts [] = .ok imgs →
      (executeComfyuiTask env task).success = true ∧
      (executeComfyuiTask env task).state = .complete) ∧
    (∀ c r, env.comfyui = some c →
      execHybridBody env c task = .ok r →
      (executeHybridTask env task).success = true ∧
      (executeHybridTask env task).state = .complete) := by
  refine ⟨?_, ?_, ?_⟩
  · intro ns hb hok
    simp only [executeFusionTask, hb, Bool.not_true, Bool.false_eq_true,
      if_false, hok]
    exact ⟨trivial, trivial⟩
  · intro c imgs hc hok
    simp only [executeComfyuiTask, hc, hok]
    exact ⟨trivial, trivial⟩
  · intro c r hc hok
    simp only [executeHybridTask, hc, hok]
    exact ⟨trivial, trivial⟩

/-- Witness for the amended C8: the zero-artifact completion above ends in
`success=true`, state `Complete`. -/
theorem c8_amended_completion_always_success_witness :
    (executeFusionTask envSoftFail taskOneStep).success = true ∧
    (executeFusionTask envSoftFail taskOneStep).state = .complete :=
  (c8_amended_completion_always_success envSoftFail taskOneStep).1 [] rfl rfl

/-- Did the `Except` computation complete without raising? -/
def exceptIsOk {α : Type} : Except PyExc α → Bool
  | .ok _ => true
  | .error _ => false

/-- Did `_create_fusion_node` return a (truthy) node for this step? -/
def createdNode (env : PyEnv) (s : PyVal) : Bool :=
  match createFusionNode env s with
  | .ok (some _) => true
  | _ => false

theorem createdNode_partition (env : PyEnv) (l : List PyVal) :
    l.countP (fun s => createdNode env s) +
      l.countP (fun s => !(createdNode env s)) = l.length := by
  induction l with
  | nil => rfl
  | cons a l ih =>
    by_cases h : createdNode env a <;>
      simp [List.countP_cons, h] <;> omega

/-- If every step's `_create_fusion_node` call completes without raising,
the graph loop completes and collects exactly one name per step that
returned a node. -/
theorem execFusionSteps_complete (env : PyEnv) (steps : List PyVal) :
    ∀ acc : List PyVal,
    (∀ s ∈ steps, exceptIsOk (createFusionNode env s) = true) →
    ∃ ns, execFusionSteps env steps acc = .ok ns ∧
      ns.length = acc.length + steps.countP (fun s => createdNode env s) := by
  induction steps with
  | nil =>
    intro acc _
    exact ⟨acc, rfl, by simp⟩
  | cons s rest ih =>
    intro acc h
    have hs := h s (List.mem_cons_self s rest)
    have hrest : ∀ x ∈ rest, exceptIsOk (createFusionNode env x) = true :=
      fun x hx => h x (List.mem_cons_of_mem s hx)
    cases hcf : createFusionNode env s with
    | error e => rw [hcf] at hs; simp [exceptIsOk] at hs
    | ok node =>
      cases node with
      | none =>
        obtain ⟨ns, h1, h2⟩ := ih acc hrest
        refine ⟨ns, ?_, ?_⟩
        · simp only [execFusionSteps, hcf, exceptBind_ok]
          exact h1
        · have hcn : createdNode env s = false := by
            simp [createdNode, hcf]
          rw [h2]
          simp [List.countP_cons, hcn]
      | some u =>
        have hdict : ∃ d, s = PyVal.dict d := by
          cases s with
          | dict d => exact ⟨d, rfl⟩
          | str t => simp [createFusionNode, pyGet, exceptBind_error] at hcf
          | num q => simp [createFusionNode, pyGet, exceptBind_error] at hcf
          | none => simp [createFusionNode, pyGet, exceptBind_error] at hcf
          | tup4 a b c d => simp [createFusionNode, pyGet, exceptBind_error] at hcf
          | other => simp [createFusionNode, pyGet, exceptBind_error] at hcf
        obtain ⟨d, rfl⟩ := hdict
        obtain ⟨ns, h1, h2⟩ :=
          ih (acc ++ [(pyLookup "name" d).getD (.str "Unknown")]) hrest
        refine ⟨ns, ?_, ?_⟩
        · simp only [execFusionSteps, hcf, exceptBind_ok, pyGet]
          exact h1
        · have hcn : createdNode env (PyVal.dict d) = true := by
            simp [createdNode, hcf]
          rw [h2]
          simp [List.countP_cons, hcn]
          omega

/-- **C7**: with the graph backend available and no step raising outside
its per-step guard, a plan of three graph steps of which exactly one fails
to create its node still completes with `success=true` and exactly two
created artifact ids — the failing step is skipped, not fatal. -/
theorem c7_failed_step_skipped (env : PyEnv) (task : RoutedTask)
    (hb : env.builderAvailable = true)
    (hlen : task.fusion_steps.length = 3)
    (hok : ∀ s ∈ task.fusion_steps, exceptIsOk (createFusionNode env s) = true)
    (hfail : task.fusion_steps.countP (fun s => !(createdNode env s)) = 1) :
    (executeFusionTask env task).success = true ∧
    (executeFusionTask env task).nodes_created.length = 2 := by
  obtain ⟨ns, h1, h2⟩ := execFusionSteps_complete env task.fusion_steps [] hok
  have hpart := createdNode_partition env task.fusion_steps
  simp only [List.length_nil, Nat.zero_add] at h2
  have hns : ns.length = 2 := by omega
  constructor
  · simp only [executeFusionTask, hb, Bool.not_true, Bool.false_eq_true,
      if_false, h1]
  · simp only [executeFusionTask, hb, Bool.not_true, Bool.false_eq_true,
      if_false, h1]
    exact hns

/-- A world whose `background` node creations raise and whose other node
creations succeed. -/
def envC7 : PyEnv :=
  { envTimeout with
    builderAvailable := true
    buildNode := fun t _ =>
      if t == "background" then .raise (.runtimeError "create failed") else .node }

/-- A three-step graph plan whose middle step fails. -/
def taskC7 : RoutedTask :=
  { task_type := "fusion", description := "demo"
    fusion_steps :=
      [.dict [("type", .str "text"), ("name", .str "Text1")],
       .dict [("type", .str "background"), ("name", .str "BG1")],
       .dict [("type", .str "merge"), ("name", .str "Merge1")]]
    comfyui_prompts := []
    execution_order := [fusionRef 0, fusionRef 1, fusionRef 2] }

/-- Witness for C7 at the concrete three-step plan. -/
theorem c7_failed_step_skipped_witness :
    (executeFusionTask envC7 taskC7).success = true ∧
    (executeFusionTask envC7 taskC7).nodes_created.length = 2 :=
  c7_failed_step_skipped envC7 taskC7 rfl rfl (by decide) (by decide)

/-- A world whose advisor subprocess exits with a non-zero code. -/
def envRc1 : PyEnv :=
  { envTimeout with
    ghSuggest := fun _ => .done { returncode := 1, stdout := "", stderr := "boom" } }

/-- **C3 counterexample**: on a non-zero advisor exit code,
`CopilotCLI.suggest` raises `RuntimeError` and `TaskRouter.route`
propagates it instead of falling back to the keyword heuristics — the
claimed never-throws contract is false. -/
theorem c3_route_raises_counterexample :
    route envRc1 "add a glow" Option.none =
      .error (.runtimeError "Copilot CLI error: boom") := rfl

/-- A parsed advisor step the hybrid loop can consume without raising: an
object whose `details` entry, when present, is itself an object. -/
def stepWellFormed : PyVal → Bool
  | .dict d =>
    (match pyLookup "details" d with
     | some (.dict _) => true
     | some _ => false
     | Option.none => true)
  | _ => false

/-- The hybrid loop completes on any list of well-formed steps. -/
theorem hybridLoop_ok (request : String) (steps : List PyVal) :
    ∀ fs cs ord, (∀ s ∈ steps, stepWellFormed s = true) →
    ∃ r, hybridLoop request steps fs cs ord = .ok r := by
  induction steps with
  | nil => intro fs cs ord _; exact ⟨(fs, cs, ord), rfl⟩
  | cons s rest ih =>
    intro fs cs ord h
    have hsw := h s (List.mem_cons_self s rest)
    have hrest : ∀ x ∈ rest, stepWellFormed x = true :=
      fun x hx => h x (List.mem_cons_of_mem s hx)
    cases s with
    | dict d =>
      simp only [hybridLoop, pyGet, exceptBind_ok]
      by_cases hcb : pyEqStr ((pyLookup "type" d).getD PyVal.none) "comfyui"
      · rw [if_pos hcb]
        have hdet : ∃ d2, (pyLookup "details" d).getD (PyVal.dict []) = PyVal.dict d2 := by
          simp only [stepWellFormed] at hsw
          cases hd : pyLookup "details" d with
          | none => exact ⟨[], rfl⟩
          | some w =>
            rw [hd] at hsw
            cases w with
            | dict d2 => exact ⟨d2, rfl⟩
            | str t => simp at hsw
            | num q => simp at hsw
            | none => simp at hsw
            | tup4 a b c dd => simp at hsw
            | other => simp at hsw
        obtain ⟨d2, hd2⟩ := hdet
        rw [hd2]
        simp only [pyGet, exceptBind_ok]
        exact ih fs (cs ++ [(pyLookup "prompt" d2).getD (PyVal.str request)])
          (ord ++ [comfyRef cs.length]) hrest
      · rw [if_neg hcb]
        exact ih (fs ++ [PyVal.dict d]) cs (ord ++ [fusionRef fs.length]) hrest
    | str t => simp [stepWellFormed] at hsw
    | num q => simp [stepWellFormed] at hsw
    | none => simp [stepWellFormed] at hsw
    | tup4 a b c dd => simp [stepWellFormed] at hsw
    | other => simp [stepWellFormed] at hsw

/-- **C3 amended**: `route` is exception-free only when the advisor
subprocesses behave — the `suggest` call completes with exit code 0 and any
parsed step breakdown consists of well-formed objects.  Under those
conditions a plan is always returned, and an unparsable response falls back
to the local keyword heuristics; but a non-zero exit code, a launch
failure or a timeout of the subprocess propagates as an exception (see the
counterexample). -/
theorem c3_amended_route_total_on_healthy_subprocess (env : PyEnv)
    (req : String) (ctx : Option String)
    (hproc : ∀ p, ∃ r, env.ghSuggest p = .done r ∧ r.returncode = 0)
    (hsteps : ∀ out steps, env.jsonSteps out = some steps →
      ∀ s ∈ steps, stepWellFormed s = true) :
    (∃ t, route env req ctx = .ok t) ∧
    (∀ r, env.ghSuggest (buildSuggestPrompt req ctx) = .done r →
      env.jsonTaskType r.stdout = Option.none →
      copilotSuggest env req ctx = .ok
        { command := r.stdout, explanation := r.stdout, confidence := 7 / 10,
          task_type := .str (inferTaskType r.stdout req) }) := by
  obtain ⟨r0, hr0, hrc0⟩ := hproc (buildSuggestPrompt req ctx)
  have hnz : ¬ (r0.returncode ≠ 0) := by simp [hrc0]
  have hcs : copilotSuggest env req ctx =
      .ok (parseSuggestion env r0.stdout req) := by
    unfold copilotSuggest
    rw [hr0]
    simp only [runProc, exceptBind_ok]
    rw [if_neg hnz]
  constructor
  · unfold route
    rw [hcs, exceptBind_ok]
    by_cases h1 : pyEqStr (parseSuggestion env r0.stdout req).task_type "fusion"
    · rw [if_pos h1]; exact ⟨_, rfl⟩
    · rw [if_neg h1]
      by_cases h2 : pyEqStr (parseSuggestion env r0.stdout req).task_type "comfyui"
      · rw [if_pos h2]; exact ⟨_, rfl⟩
      · rw [if_neg h2]
        unfold routeHybridTask breakDownTask
        obtain ⟨r1, hr1, _⟩ := hproc (breakDownPrompt req)
        rw [hr1]
        simp only [runProc, exceptBind_ok]
        cases hjs : env.jsonSteps r1.stdout with
        | some steps =>
          obtain ⟨⟨fs, cs, ord⟩, hloop⟩ :=
            hybridLoop_ok req steps [] [] [] (hsteps r1.stdout steps hjs)
          rw [exceptBind_ok, hloop, exceptBind_ok]
          exact ⟨_, rfl⟩
        | none =>
          have hwf : ∀ s ∈ [PyVal.dict
              [("id", .num 1), ("description", .str req),
               ("type", .str "fusion"), ("details", .dict [])]],
              stepWellFormed s = true := by
            intro s hs
            rw [List.mem_singleton] at hs
            subst hs
            rfl
          obtain ⟨⟨fs, cs, ord⟩, hloop⟩ := hybridLoop_ok req _ [] [] [] hwf
          rw [exceptBind_ok, hloop, exceptBind_ok]
          exact ⟨_, rfl⟩
  · intro r hr hparse
    have : r = r0 := by
      rw [hr0] at hr
      cases hr
      rfl
    subst this
    rw [hcs]
    unfold parseSuggestion
    rw [hparse]

/-- A world whose advisor subprocess succeeds with exit code 0 but whose
output parses neither as a JSON object nor as a JSON array. -/
def envDone0 : PyEnv :=
  { envTimeout with
    ghSuggest := fun _ => .done { returncode := 0, stdout := "plan text", stderr := "" } }

/-- Witness for the amended C3: with a healthy subprocess and unparsable
output, `route` returns a plan and `suggest` uses the keyword fallback. -/
theorem c3_amended_route_total_on_healthy_subprocess_witness :
    (∃ t, route envDone0 "make it glow" Option.none = .ok t) ∧
    (∀ r, envDone0.ghSuggest (buildSuggestPrompt "make it glow" Option.none) = .done r →
      envDone0.jsonTaskType r.stdout = Option.none →
      copilotSuggest envDone0 "make it glow" Option.none = .ok
        { command := r.stdout, explanation := r.stdout, confidence := 7 / 10,
          task_type := .str (inferTaskType r.stdout "make it glow") }) :=
  c3_amended_route_total_on_healthy_subprocess envDone0 "make it glow" Option.none
    (fun _ => ⟨_, rfl, rfl⟩)
    (fun _ _ h => Option.noConfusion h)

/-- The C10 invariant on a routed plan, exactly as the spec states it:
every step of both lists is referenced exactly once by `executionOrder`,
nothing is referenced twice, and every reference resolves in range. -/
def refOnce (t : RoutedTask) : Prop :=
  (∀ i, i < t.fusion_steps.length → t.execution_order.count (fusionRef i) = 1) ∧
  (∀ j, j < t.comfyui_prompts.length → t.execution_order.count (comfyRef j) = 1) ∧
  (∀ s ∈ t.execution_order,
    (∃ i, i < t.fusion_steps.length ∧ s = fusionRef i) ∨
    (∃ j, j < t.comfyui_prompts.length ∧ s = comfyRef j)) ∧
  t.execution_order.Nodup

/-- Working invariant for the loop: the order list holds exactly the
references `fusion_0 .. fusion_(nf-1)` and `comfyui_0 .. comfyui_(nc-1)`,
without duplicates. -/
def ordInv (nf nc : Nat) (ord : List String) : Prop :=
  (∀ s ∈ ord, (∃ i, i < nf ∧ s = fusionRef i) ∨ (∃ j, j < nc ∧ s = comfyRef j)) ∧
  (∀ i, i < nf → fusionRef i ∈ ord) ∧
  (∀ j, j < nc → comfyRef j ∈ ord) ∧
  ord.Nodup

theorem ordInv_nil : ordInv 0 0 [] :=
  ⟨by simp, by omega, by omega, List.nodup_nil⟩

theorem ordInv_push_fusion (nf nc : Nat) (ord : List String)
    (h : ordInv nf nc ord) : ordInv (nf + 1) nc (ord ++ [fusionRef nf]) := by
  obtain ⟨hmem, hf, hc, hnd⟩ := h
  have hnotin : fusionRef nf ∉ ord := by
    intro hin
    rcases hmem _ hin with ⟨i, hi, he⟩ | ⟨j, hj, he⟩
    · have := fusionRef_injective he; omega
    · exact fusionRef_ne_comfyRef nf j he
  refine ⟨?_, ?_, ?_, ?_⟩
  · intro s hs
    rcases List.mem_append.1 hs with hs | hs
    · rcases hmem s hs with ⟨i, hi, he⟩ | hc2
      · exact Or.inl ⟨i, by omega, he⟩
      · exact Or.inr hc2
    · exact Or.inl ⟨nf, by omega, List.mem_singleton.1 hs⟩
  · intro i hi
    by_cases h2 : i < nf
    · exact List.mem_append.2 (Or.inl (hf i h2))
    · have : i = nf := by omega
      subst this
      exact List.mem_append.2 (Or.inr (List.mem_singleton.2 rfl))
  · intro j hj
    exact List.mem_append.2 (Or.inl (hc j hj))
  · refine List.Nodup.append hnd (List.nodup_singleton _) ?_
    intro a ha hb
    rw [List.mem_singleton] at hb
    subst hb
    exact hnotin ha

theorem ordInv_push_comfy (nf nc : Nat) (ord : List String)
    (h : ordInv nf nc ord) : ordInv nf (nc + 1) (ord ++ [comfyRef nc]) := by
  obtain ⟨hmem, hf, hc, hnd⟩ := h
  have hnotin : comfyRef nc ∉ ord := by
    intro hin
    rcases hmem _ hin with ⟨i, hi, he⟩ | ⟨j, hj, he⟩
    · exact fusionRef_ne_comfyRef i nc he.symm
    · have := comfyRef_injective he; omega
  refine ⟨?_, ?_, ?_, ?_⟩
  · intro s hs
    rcases List.mem_append.1 hs with hs | hs
    · rcases hmem s hs with hf2 | ⟨j, hj, he⟩
      · exact Or.inl hf2
      · exact Or.inr ⟨j, by omega, he⟩
    · exact Or.inr ⟨nc, by omega, List.mem_singleton.1 hs⟩
  · intro i hi
    exact List.mem_append.2 (Or.inl (hf i hi))
  · intro j hj
    by_cases h2 : j < nc
    · exact List.mem_append.2 (Or.inl (hc j h2))
    · have : j = nc := by omega
      subst this
      exact List.mem_append.2 (Or.inr (List.mem_singleton.2 rfl))
  · refine List.Nodup.append hnd (List.nodup_singleton _) ?_
    intro a ha hb
    rw [List.mem_singleton] at hb
    subst hb
    exact hnotin ha

/-- The hybrid loop preserves the working invariant. -/
theorem hybridLoop_inv (request : String) (steps : List PyVal) :
    ∀ (fs cs : List PyVal) (ord : List String)
      (res : List PyVal × List PyVal × List String),
    ordInv fs.length cs.length ord →
    hybridLoop request steps fs cs ord = .ok res →
    ordInv res.1.length res.2.1.length res.2.2 := by
  induction steps with
  | nil =>
    intro fs cs ord res hinv hloop
    cases hloop
    exact hinv
  | cons s rest ih =>
    intro fs cs ord res hinv hloop
    cases s with
    | dict d =>
      simp only [hybridLoop, pyGet, exceptBind_ok] at hloop
      by_cases hcb : pyEqStr ((pyLookup "type" d).getD PyVal.none) "comfyui"
      · rw [if_pos hcb] at hloop
        cases hdd : (pyLookup "details" d).getD (PyVal.dict []) with
        | dict entries =>
          rw [hdd] at hloop
          simp only [exceptBind_ok] at hloop
          have hinv2 : ordInv fs.length
              (cs ++ [(pyLookup "prompt" entries).getD (PyVal.str request)]).length
              (ord ++ [comfyRef cs.length]) := by
            rw [List.length_append, List.length_singleton]
            exact ordInv_push_comfy fs.length cs.length ord hinv
          exact ih fs (cs ++ [(pyLookup "prompt" entries).getD (PyVal.str request)])
            (ord ++ [comfyRef cs.length]) res hinv2 hloop
        | str t => rw [hdd] at hloop; simp [exceptBind_error] at hloop
        | num q => rw [hdd] at hloop; simp [exceptBind_error] at hloop
        | none => rw [hdd] at hloop; simp [exceptBind_error] at hloop
        | tup4 a b c dd2 => rw [hdd] at hloop; simp [exceptBind_error] at hloop
        | other => rw [hdd] at hloop; simp [exceptBind_error] at hloop
      · rw [if_neg hcb] at hloop
        have hinv2 : ordInv (fs ++ [PyVal.dict d]).length cs.length
            (ord ++ [fusionRef fs.length]) := by
          rw [List.length_append, List.length_singleton]
          exact ordInv_push_fusion fs.length cs.length ord hinv
        exact ih (fs ++ [PyVal.dict d]) cs (ord ++ [fusionRef fs.length]) res hinv2 hloop
    | str t => simp [hybridLoop, pyGet, exceptBind_error] at hloop
    | num q => simp [hybridLoop, pyGet, exceptBind_error] at hloop
    | none => simp [hybridLoop, pyGet, exceptBind_error] at hloop
    | tup4 a b c dd => simp [hybridLoop, pyGet, exceptBind_error] at hloop
    | other => simp [hybridLoop, pyGet, exceptBind_error] at hloop

/-- From the working invariant to the claimed one (counts come from
no-duplication plus membership). -/
theorem refOnce_mk (tt desc : String) (fs cs : List PyVal) (ord : List String)
    (h : ordInv fs.length cs.length ord) :
    refOnce { task_type := tt, description := desc, fusion_steps := fs
              comfyui_prompts := cs, execution_order := ord } := by
  obtain ⟨hmem, hf, hc, hnd⟩ := h
  exact ⟨fun i hi => List.count_eq_one_of_mem hnd (hf i hi),
         fun j hj => List.count_eq_one_of_mem hnd (hc j hj),
         hmem, hnd⟩

theorem refOnce_routeFusion (request : String) :
    refOnce (routeFusionTask request) := by
  have h : ordInv (extractFusionSteps request).length 0
      ((List.range (extractFusionSteps request).length).map fusionRef) := by
    refine ⟨?_, ?_, ?_, ?_⟩
    · intro s hs
      rcases List.mem_map.1 hs with ⟨i, hi, he⟩
      exact Or.inl ⟨i, List.mem_range.1 hi, he.symm⟩
    · intro i hi
      exact List.mem_map.2 ⟨i, List.mem_range.2 hi, rfl⟩
    · intro j hj
      omega
    · exact List.Nodup.map fusionRef_injective (List.nodup_range _)
  exact refOnce_mk "fusion" request _ [] _ h

theorem refOnce_routeComfyui (request : String) :
    refOnce (routeComfyuiTask request) := by
  have h : ordInv 1 1 [comfyRef 0, fusionRef 0] := by
    refine ⟨?_, ?_, ?_, ?_⟩
    · intro s hs
      rcases List.mem_cons.1 hs with he | hs2
      · exact Or.inr ⟨0, by omega, he⟩
      · rcases List.mem_singleton.1 hs2 with he
        exact Or.inl ⟨0, by omega, he⟩
    · intro i hi
      have : i = 0 := by omega
      subst this
      exact List.mem_cons_of_mem _ (List.mem_singleton.2 rfl)
    · intro j hj
      have : j = 0 := by omega
      subst this
      exact List.mem_cons_self _ _
    · refine List.nodup_cons.2 ⟨?_, List.nodup_singleton _⟩
      intro hin
      exact fusionRef_ne_comfyRef 0 0 ((List.mem_singleton.1 hin).symm)
  have hp : (extractComfyuiPrompts request).length = 1 := rfl
  have := refOnce_mk "comfyui" request
    [PyVal.dict [("type", .str "loader"),
      ("description", .str "Load AI-generated image"),
      ("params", .dict [("clip", .str "\x7bgenerated_image\x7d")])]]
    (extractComfyuiPrompts request) [comfyRef 0, fusionRef 0] (by rw [hp]; exact h)
  exact this

theorem refOnce_routeHybrid (env : PyEnv) (request : String) (t : RoutedTask)
    (h : routeHybridTask env request = .ok t) : refOnce t := by
  unfold routeHybridTask at h
  cases hbd : breakDownTask env request with
  | error e => rw [hbd, exceptBind_error] at h; exact Except.noConfusion h
  | ok steps =>
    rw [hbd, exceptBind_ok] at h
    cases hloop : hybridLoop request steps [] [] [] with
    | error e => rw [hloop, exceptBind_error] at h; exact Except.noConfusion h
    | ok res =>
      obtain ⟨fs, cs, ord⟩ := res
      rw [hloop, exceptBind_ok] at h
      have hinv := hybridLoop_inv request steps [] [] [] (fs, cs, ord) ordInv_nil hloop
      cases h
      exact refOnce_mk "hybrid" request fs cs ord hinv

/-- **C10**: every plan the classifier produces — on the graph-only,
generation-only, or hybrid routing path — has an `executionOrder` that
references each step of `fusion_steps` and each prompt of
`comfyui_prompts` exactly once, with no duplicate and no out-of-range
reference. -/
theorem c10_execution_order_references_each_step_once (env : PyEnv)
    (req : String) (ctx : Option String) (t : RoutedTask)
    (h : route env req ctx = .ok t) : refOnce t := by
  unfold route at h
  cases hs : copilotSuggest env req ctx with
  | error e => rw [hs, exceptBind_error] at h; exact Except.noConfusion h
  | ok s =>
    rw [hs, exceptBind_ok] at h
    by_cases h1 : pyEqStr s.task_type "fusion"
    · rw [if_pos h1] at h
      cases h
      exact refOnce_routeFusion req
    · rw [if_neg h1] at h
      by_cases h2 : pyEqStr s.task_type "comfyui"
      · rw [if_pos h2] at h
        cases h
        exact refOnce_routeComfyui req
      · rw [if_neg h2] at h
        exact refOnce_routeHybrid env req t h

/-- Witness for C10: a concrete routed plan satisfying the invariant. -/
theorem c10_execution_order_references_each_step_once_witness :
    ∃ t, route envOkFusion "add a glow" Option.none = .ok t ∧ refOnce t :=
  ⟨routeFusionTask "add a glow", rfl,
   c10_execution_order_references_each_step_once envOkFusion "add a glow"
     Option.none (routeFusionTask "add a glow") rfl⟩
